import Mathlib

/-!
Shallow embedding of `src/run_scheduled_tasks.py`, the single source file of
the poll_bot_monitor repository: a scheduled-task trigger that loads
configuration from the process environment (CI mode) or a local `.env` file,
issues one authenticated HTTP POST, classifies the response, and maps the
outcome to a process exit code.
-/

namespace PollBotMonitor

/-- Python `str.strip()` whitespace characters (ASCII subset used by the
source: space, tab, newline, carriage return, vertical tab, form feed). -/
def isPyWs (c : Char) : Bool :=
  c == ' ' || c == '\t' || c == '\n' || c == '\r' ||
    c == Char.ofNat 11 || c == Char.ofNat 12

/-- Quote characters stripped from values in the `.env` parser:
`value.strip().strip('"\x27')`. -/
def isQuoteChar (c : Char) : Bool := c == '"' || c == '\''

def isSlash (c : Char) : Bool := c == '/'

/-- Remove the longest run of characters satisfying `p` from the end of a
list, as Python `str.rstrip` does for its character set. -/
def dropTrailing (p : Char → Bool) (l : List Char) : List Char :=
  (l.reverse.dropWhile p).reverse

/-- Remove characters satisfying `p` from both ends, as Python `str.strip`. -/
def stripEnds (p : Char → Bool) (l : List Char) : List Char :=
  dropTrailing p (l.dropWhile p)

/-- Python `line.strip()` for the source's ASCII inputs. -/
def pyStrip (s : String) : String := String.mk (stripEnds isPyWs s.toList)

/-- Python `value.strip('"\x27')`: strips surrounding quote characters. -/
def stripQuotes (s : String) : String := String.mk (stripEnds isQuoteChar s.toList)

/-- Python `flask_app_url.rstrip('/')`: removes every trailing slash. -/
def rstripSlash (s : String) : String := String.mk (dropTrailing isSlash s.toList)

/-- Python `line.split('=', 1)`: split at the first `=`; `none` when the
line has no `=` (the source's  `'=' in line` test). -/
def splitFirstEq : List Char → Option (List Char × List Char)
  | [] => none
  | c :: rest =>
      if c == '=' then some ([], rest)
      else
        match splitFirstEq rest with
        | some (a, b) => some (c :: a, b)
        | none => none

/-- Python `line.startswith('#')` on the stripped line. -/
def startsHash (s : String) : Bool :=
  match s.toList with
  | c :: _ => c == '#'
  | [] => false

/-- An environment / configuration dictionary: string keys to string values. -/
abbrev EnvMap := List (String × String)

/-- `os.getenv(name)`: `none` when the variable is absent. -/
def getenv (env : EnvMap) (name : String) : Option String := List.lookup name env

def kGithubActions : String := "GITHUB_ACTIONS"
def kTrue : String := "true"
def kFlaskAppUrl : String := "FLASK_APP_URL"
def kAdminUsername : String := "ADMIN_USERNAME"
def kAdminPassword : String := "ADMIN_PASSWORD"
def kEmpty : String := ""
def kRunPath : String := "/run_scheduled_tasks"

/-- The nine recognized environment variables (`required_vars` in the source). -/
def required_vars : List String :=
  ["FLASK_APP_URL", "ADMIN_USERNAME", "ADMIN_PASSWORD",
   "TELEGRAM_BOT_TOKEN", "DB_HOST", "DB_PORT", "DB_NAME", "DB_USER", "DB_PASSWORD"]

/-- One step of the CI-mode loop: `value = os.getenv(var); if value:
env_vars[var] = value` — a variable contributes only when present with a
non-empty (truthy) value. -/
def ciVar (env : EnvMap) (v : String) : Option (String × String) :=
  match getenv env v with
  | some value => if value.isEmpty then none else some (v, value)
  | none => none

/-- The dictionary the CI branch of `load_env_variables` accumulates. -/
def ciCollect (env : EnvMap) : EnvMap := required_vars.filterMap (ciVar env)

/-- The possible states of the `.env` file in local-file mode: absent
(`os.path.exists` false), unreadable (the `open`/read raises), or present
with its lines. -/
inductive FileSystem where
  | noFile
  | readError
  | file (lines : List String)
deriving DecidableEq

/-- The body of the `.env` reading loop for one line: strip, skip blank
lines, `#` comments and lines without `=`, else split at the first `=`,
strip the key, strip and unquote the value. -/
def parseEnvLine (line : String) : Option (String × String) :=
  let s := pyStrip line
  if s.isEmpty then none
  else if startsHash s then none
  else
    match splitFirstEq s.toList with
    | some (a, b) => some (pyStrip (String.mk a), stripQuotes (pyStrip (String.mk b)))
    | none => none

/-- Python dict assignment `env_vars[key] = value` (replace or append; the
claims observe the mapping only through `List.lookup`). -/
def dictInsert (d : EnvMap) (k v : String) : EnvMap :=
  d.filter (fun p => p.1 != k) ++ [(k, v)]

/-- The dictionary built by the `.env` reading loop over the file's lines. -/
def load_env_file (lines : List String) : EnvMap :=
  lines.foldl
    (fun d l =>
      match parseEnvLine l with
      | some kv => dictInsert d kv.1 kv.2
      | none => d)
    []

/-- `load_env_variables`: CI branch when `GITHUB_ACTIONS == 'true'`
(succeeds iff at least 3 recognized variables were collected), else the
`.env` file branch (`none` when the file is missing or unreadable; the
parsed dictionary — possibly empty — otherwise). -/
def load_env_variables (env : EnvMap) (fs : FileSystem) : Option EnvMap :=
  if getenv env kGithubActions = some kTrue then
    let env_vars := ciCollect env
    if 3 ≤ env_vars.length then some env_vars else none
  else
    match fs with
    | .noFile => none
    | .readError => none
    | .file lines => some (load_env_file lines)

/-- Fields the source reads from the parsed JSON body of a 200 response:
`result.get('tasks_executed', 0)`, `result.get('total_due_tasks', 0)`,
`result.get('errors')`. -/
structure JsonFields where
  tasks_executed : Option Int
  total_due_tasks : Option Int
  errors : Option (List String)
deriving DecidableEq

/-- Result of `response.json()` when it succeeds: a JSON object with the
fields above, or some other JSON value (on which `.get` would raise). -/
inductive ParsedJson where
  | obj (fields : JsonFields)
  | nonObj
deriving DecidableEq

/-- An HTTP response: status code, the outcome of parsing its body as JSON
(`none` = `response.json()` raises), and its raw text. -/
structure HttpResponse where
  status_code : Nat
  json : Option ParsedJson
  text : String
deriving DecidableEq

/-- What the network does for the one `requests.post` call: a response, or
one of the exception classes the source catches. -/
inductive HttpOutcome where
  | response (r : HttpResponse)
  | timeout
  | connectionError
  | requestException
  | unexpectedException
deriving DecidableEq

/-- Distinguishing log messages the source emits on each path. -/
inductive LogEvent where
  | loadFailed
  | missingRequired
  | triggering (url : String)
  | successCounts (tasks_executed total_due_tasks : Int)
  | taskErrors (errs : List String)
  | authFailed
  | endpointNotFound
  | httpError (code : Nat) (body : String)
  | timeoutError
  | connectionFailed
  | requestError
  | unexpectedError
deriving DecidableEq

/-- Outcome of one `trigger_scheduled_tasks` call: its boolean result,
whether the HTTP POST was issued, and the log events emitted. -/
structure TriggerResult where
  ok : Bool
  requestIssued : Bool
  log : List LogEvent
deriving DecidableEq

/-- Python truthiness of an optional string (`None` and `''` are falsy):
used for `if not env_vars` lookups and `if not all([...])`. -/
def truthyOpt : Option String → Bool
  | some s => !s.isEmpty
  | none => false

/-- `endpoint_url = f"{flask_app_url.rstrip('/')}/run_scheduled_tasks"`. -/
def endpoint_url (flask_app_url : String) : String :=
  rstripSlash flask_app_url ++ kRunPath

/-- Response classification of `trigger_scheduled_tasks` (lines 118–155):
200 → parse JSON and succeed; 401, 404, other codes → fail; timeout,
connection error, request exception, unexpected exception → fail. A 200
body that fails to parse, or parses to a non-object, raises inside the
`try` and is caught by the surrounding handlers, yielding failure. -/
def handle_response (url : String) (http : HttpOutcome) : Bool × List LogEvent :=
  match http with
  | .response r =>
      if r.status_code == 200 then
        match r.json with
        | some (ParsedJson.obj f) =>
            (true,
              [LogEvent.triggering url,
               LogEvent.successCounts (f.tasks_executed.getD 0) (f.total_due_tasks.getD 0)] ++
                (match f.errors with
                 | some errs => if errs.isEmpty then [] else [LogEvent.taskErrors errs]
                 | none => []))
        | some ParsedJson.nonObj => (false, [LogEvent.triggering url, LogEvent.unexpectedError])
        | none => (false, [LogEvent.triggering url, LogEvent.unexpectedError])
      else if r.status_code == 401 then (false, [LogEvent.triggering url, LogEvent.authFailed])
      else if r.status_code == 404 then
        (false, [LogEvent.triggering url, LogEvent.endpointNotFound])
      else (false, [LogEvent.triggering url, LogEvent.httpError r.status_code r.text])
  | .timeout => (false, [LogEvent.triggering url, LogEvent.timeoutError])
  | .connectionError => (false, [LogEvent.triggering url, LogEvent.connectionFailed])
  | .requestException => (false, [LogEvent.triggering url, LogEvent.requestError])
  | .unexpectedException => (false, [LogEvent.triggering url, LogEvent.unexpectedError])

/-- `trigger_scheduled_tasks`: load configuration (`if not env_vars` treats
`None` and the empty dict alike), check the three required keys are present
and non-empty, build the endpoint URL, and classify the HTTP outcome. The
`http` argument is what the network would return were the POST issued;
`requestIssued` records whether it actually is. -/
def trigger_scheduled_tasks (env : EnvMap) (fs : FileSystem) (http : HttpOutcome) :
    TriggerResult :=
  match load_env_variables env fs with
  | none => ⟨false, false, [LogEvent.loadFailed]⟩
  | some env_vars =>
      if env_vars.isEmpty then ⟨false, false, [LogEvent.loadFailed]⟩
      else
        let flask_app_url := List.lookup kFlaskAppUrl env_vars
        let admin_username := List.lookup kAdminUsername env_vars
        let admin_password := List.lookup kAdminPassword env_vars
        if truthyOpt flask_app_url && truthyOpt admin_username && truthyOpt admin_password then
          let url := endpoint_url (flask_app_url.getD kEmpty)
          let hr := handle_response url http
          ⟨hr.1, true, hr.2⟩
        else ⟨false, false, [LogEvent.missingRequired]⟩

/-- How one `main()` run ends: `trigger_scheduled_tasks` returns (it never
raises — it catches every exception), or a `KeyboardInterrupt` / other
exception lands in `main`'s own handlers. -/
inductive TriggerRun where
  | completed (r : TriggerResult)
  | keyboardInterrupt
  | fatalError
deriving DecidableEq

/-- `main` (lines 157–185): boolean result → exit code 0/1;
`KeyboardInterrupt` → 1; any other exception → 1; always `sys.exit` with
the computed code. -/
def main_exit_code : TriggerRun → Nat
  | TriggerRun.completed r => if r.ok then 0 else 1
  | TriggerRun.keyboardInterrupt => 1
  | TriggerRun.fatalError => 1

/-- Whether a string's last character is a slash. -/
def endsInSlash (s : String) : Bool :=
  match s.toList.getLast? with
  | some c => c == '/'
  | none => false

/-- The URL construction as the spec's words describe it — remove exactly
one trailing slash, then append the fixed path — to be compared with
`endpoint_url`, which embeds the source. -/
def endpointUrlSpecOneSlash (u : String) : String :=
  (if endsInSlash u then String.mk u.toList.dropLast else u) ++ kRunPath

/-- Remove a variable from the environment entirely, so that `getenv`
finds nothing for it: the model of an absent variable. -/
def envErase (env : EnvMap) (v : String) : EnvMap :=
  env.filter (fun p => p.1 != v)

/-- A CI environment where only database variables are set: none of the
three essential keys is present, yet three recognized variables are. -/
def envDbOnly : EnvMap :=
  [("GITHUB_ACTIONS", "true"), ("DB_HOST", "h"), ("DB_PORT", "p"), ("DB_NAME", "n")]

/-- A CI environment with exactly the three essential keys set. -/
def envEssential : EnvMap :=
  [("GITHUB_ACTIONS", "true"), ("FLASK_APP_URL", "http://x"),
   ("ADMIN_USERNAME", "u"), ("ADMIN_PASSWORD", "p")]

/-- The dictionary `load_env_variables` produces from `envEssential`. -/
def dEssential : EnvMap :=
  [("FLASK_APP_URL", "http://x"), ("ADMIN_USERNAME", "u"), ("ADMIN_PASSWORD", "p")]

/-- A sample parsed 200-response body with counts and one per-task error. -/
def fSample : JsonFields :=
  ⟨some 5, some 7, some ["boom"]⟩

/-- A CI environment where `FLASK_APP_URL` is set to the empty string. -/
def envEmptyUrl : EnvMap :=
  [("GITHUB_ACTIONS", "true"), ("FLASK_APP_URL", ""), ("DB_HOST", "h")]

/-! ### Helper lemmas -/

/-- The CI loop admits exactly the recognized variables whose value is
present and non-empty, so the collected dictionary's size equals the count
of truthy recognized variables. -/
lemma length_filterMap_ciVar (env : EnvMap) (l : List String) :
    (l.filterMap (ciVar env)).length =
      (l.filter (fun v => truthyOpt (getenv env v))).length := by
  induction l with
  | nil => rfl
  | cons x xs ih =>
      rw [List.filterMap_cons, List.filter_cons]
      cases hg : getenv env x with
      | none => simpa [ciVar, truthyOpt, hg] using ih
      | some s =>
          cases hs : s.isEmpty <;>
            simp [ciVar, truthyOpt, hg, hs, ih]

/-- If `handle_response` reports success, the outcome was a 200 response
whose body parsed as a JSON object. -/
lemma handle_response_ok (url : String) (http : HttpOutcome)
    (h : (handle_response url http).1 = true) :
    ∃ r f, http = HttpOutcome.response r ∧ r.status_code = 200 ∧
      r.json = some (ParsedJson.obj f) := by
  cases http with
  | response r =>
      by_cases h200 : r.status_code = 200
      · cases hj : r.json with
        | none => simp [handle_response, hj, h200] at h
        | some pj =>
            cases pj with
            | obj f => exact ⟨r, f, rfl, h200, hj⟩
            | nonObj => simp [handle_response, hj, h200] at h
      · have hb : (r.status_code == 200) = false := by
          simpa using h200
        simp only [handle_response, hb, Bool.false_eq_true, if_false] at h
        split at h <;> (try split at h) <;> simp_all
  | timeout => simp [handle_response] at h
  | connectionError => simp [handle_response] at h
  | requestException => simp [handle_response] at h
  | unexpectedException => simp [handle_response] at h

/-- If `trigger_scheduled_tasks` reports success, the network outcome was
a 200 response whose body parsed as a JSON object. -/
lemma trigger_ok_true (env : EnvMap) (fs : FileSystem) (http : HttpOutcome)
    (h : (trigger_scheduled_tasks env fs http).ok = true) :
    ∃ r f, http = HttpOutcome.response r ∧ r.status_code = 200 ∧
      r.json = some (ParsedJson.obj f) := by
  unfold trigger_scheduled_tasks at h
  cases hload : load_env_variables env fs <;> rw [hload] at h
  · simp at h
  · case some d =>
      by_cases hd : d.isEmpty
      · simp [hd] at h
      · simp only [hd, Bool.false_eq_true, if_false] at h
        split at h
        · exact handle_response_ok _ _ h
        · simp at h

/-- A blank line, a `#` comment, or a line without `=` parses to nothing. -/
lemma parseEnvLine_eq_none (b : String)
    (h : pyStrip b = kEmpty ∨ startsHash (pyStrip b) = true ∨
      splitFirstEq (pyStrip b).toList = none) :
    parseEnvLine b = none := by
  rcases h with h | h | h
  · unfold parseEnvLine
    rw [h]
    rfl
  · unfold parseEnvLine
    by_cases he : (pyStrip b).isEmpty = true
    · simp [he]
    · simp [he, h]
  · unfold parseEnvLine
    have h' : splitFirstEq (pyStrip b).data = none := h
    by_cases he : (pyStrip b).isEmpty = true
    · simp [he]
    · by_cases hh : startsHash (pyStrip b) = true
      · simp [he, hh]
      · simp [he, hh, h']

/-- Lines that parse to nothing leave the accumulating dictionary alone. -/
lemma foldl_parse_none (lines : List String) (d : EnvMap)
    (h : ∀ l ∈ lines, parseEnvLine l = none) :
    lines.foldl
      (fun d l =>
        match parseEnvLine l with
        | some kv => dictInsert d kv.1 kv.2
        | none => d)
      d = d := by
  induction lines generalizing d with
  | nil => rfl
  | cons x xs ih =>
      rw [List.foldl_cons]
      have hx := h x (by simp)
      rw [hx]
      exact ih d (fun l hl => h l (by simp [hl]))

/-- After erasing a variable, `getenv` no longer finds it. -/
lemma getenv_envErase_self (env : EnvMap) (v : String) :
    getenv (envErase env v) v = none := by
  induction env with
  | nil => rfl
  | cons p ps ih =>
      unfold envErase at ih ⊢
      rw [List.filter_cons]
      by_cases hp : p.1 = v
      · simp only [hp, bne_self_eq_false, Bool.false_eq_true, if_false]
        exact ih
      · have hb : (p.1 != v) = true := by simpa using hp
        rw [hb, if_pos rfl]
        unfold getenv
        rw [List.lookup]
        have : (v == p.1) = false := by
          simpa using fun hvp => hp hvp.symm
        rw [this]
        exact ih

/-- Erasing one variable does not change what `getenv` finds for others. -/
lemma getenv_envErase_ne (env : EnvMap) (v w : String) (h : w ≠ v) :
    getenv (envErase env v) w = getenv env w := by
  induction env with
  | nil => rfl
  | cons p ps ih =>
      unfold envErase at ih ⊢
      rw [List.filter_cons]
      by_cases hp : p.1 = v
      · simp only [hp, bne_self_eq_false, Bool.false_eq_true, if_false]
        rw [ih]
        unfold getenv
        rw [List.lookup]
        have : (w == p.1) = false := by
          simpa using fun hwp => h (hwp.trans hp)
        rw [this]
      · have hb : (p.1 != v) = true := by simpa using hp
        rw [hb, if_pos rfl]
        unfold getenv at ih ⊢
        rw [List.lookup, List.lookup]
        cases hw : (w == p.1)
        · exact ih
        · rfl

/-- `ciVar` cannot distinguish an empty-valued variable from an erased one. -/
lemma ciVar_envErase (env : EnvMap) (v : String) (he : getenv env v = some kEmpty) :
    ∀ w, ciVar (envErase env v) w = ciVar env w := by
  intro w
  by_cases hw : w = v
  · subst hw
    unfold ciVar
    rw [he, getenv_envErase_self]
    rfl
  · unfold ciVar
    rw [getenv_envErase_ne env v w hw]

/-- The CI-collected dictionary is unchanged by erasing an empty-valued
variable. -/
lemma ciCollect_envErase (env : EnvMap) (v : String)
    (he : getenv env v = some kEmpty) :
    ciCollect (envErase env v) = ciCollect env := by
  unfold ciCollect
  exact List.filterMap_congr (fun w _ => ciVar_envErase env v he w)

/-- An empty-valued variable never appears among the CI-collected pairs. -/
lemma lookup_filterMap_ciVar (env : EnvMap) (v : String)
    (he : getenv env v = some kEmpty) (l : List String) :
    List.lookup v (l.filterMap (ciVar env)) = none := by
  induction l with
  | nil => rfl
  | cons x xs ih =>
      rw [List.filterMap_cons]
      cases hx : ciVar env x with
      | none => exact ih
      | some p =>
          obtain ⟨p1, p2⟩ := p
          unfold ciVar at hx
          split at hx
          case _ s hgx =>
            split at hx
            case _ his => exact absurd hx (by simp)
            case _ hne =>
              injection hx with hx'
              injection hx' with hx1 hx2
              rw [List.lookup]
              have hxv : (v == p1) = false := by
                refine beq_eq_false_iff_ne.mpr (fun hvx => ?_)
                have hxveq : x = v := hx1.trans hvx.symm
                rw [hxveq, he] at hgx
                injection hgx with hg'
                rw [← hg'] at hne
                exact hne rfl
              rw [hxv]
              exact ih
          case _ hgx => exact absurd hx (by simp)

/-- Every list of characters splits as its slash-stripped part followed by
a run of slashes. -/
lemma exists_slash_run (l : List Char) :
    ∃ k, l = dropTrailing isSlash l ++ List.replicate k '/' := by
  refine ⟨(l.reverse.takeWhile isSlash).length, ?_⟩
  have hsplit : l.reverse.takeWhile isSlash ++ l.reverse.dropWhile isSlash = l.reverse :=
    List.takeWhile_append_dropWhile isSlash l.reverse
  have hrep : l.reverse.takeWhile isSlash =
      List.replicate (l.reverse.takeWhile isSlash).length '/' := by
    refine List.eq_replicate_of_mem (fun b hb => ?_)
    have := List.mem_takeWhile_imp hb
    simpa [isSlash] using this
  have h2 : (l.reverse.takeWhile isSlash).reverse =
      List.replicate (l.reverse.takeWhile isSlash).length '/' := by
    conv_lhs => rw [hrep]
    rw [List.reverse_replicate]
  calc l = l.reverse.reverse := (List.reverse_reverse l).symm
    _ = (l.reverse.takeWhile isSlash ++ l.reverse.dropWhile isSlash).reverse := by
          rw [hsplit]
    _ = (l.reverse.dropWhile isSlash).reverse ++ (l.reverse.takeWhile isSlash).reverse := by
          rw [List.reverse_append]
    _ = dropTrailing isSlash l ++ List.replicate (l.reverse.takeWhile isSlash).length '/' := by
          rw [h2, dropTrailing]

/-- The head of `dropWhile p l`, when present, fails `p`. -/
lemma head_dropWhile_false (p : Char → Bool) (l : List Char) (c : Char)
    (h : (l.dropWhile p).head? = some c) : p c = false := by
  induction l with
  | nil => simp [List.dropWhile] at h
  | cons x xs ih =>
      rw [List.dropWhile] at h
      cases hp : p x
      · rw [hp] at h
        simp only [List.head?] at h
        injection h with h'
        rw [← h']
        exact hp
      · rw [hp] at h
        exact ih h

/-- The slash-stripped part of a string does not end in a slash. -/
lemma endsInSlash_rstripSlash (u : String) : endsInSlash (rstripSlash u) = false := by
  unfold endsInSlash rstripSlash dropTrailing
  have htl : (String.mk (u.toList.reverse.dropWhile isSlash).reverse).toList =
      (u.toList.reverse.dropWhile isSlash).reverse := rfl
  rw [htl, List.getLast?_reverse]
  cases hh : (u.toList.reverse.dropWhile isSlash).head? with
  | none => rfl
  | some c =>
      have := head_dropWhile_false isSlash (u.toList.reverse) c hh
      simpa [isSlash] using this

/-! ### Claim theorems -/

/-- C1 (counterexample): in CI mode, an environment with only the three
database variables set — none of the essential keys base URL, admin
username, admin password present — still makes `load_env_variables`
succeed, contradicting the claim that success requires at least three of
the essential keys. -/
theorem c1_counterexample :
    getenv envDbOnly kGithubActions = some kTrue ∧
    getenv envDbOnly kFlaskAppUrl = none ∧
    getenv envDbOnly kAdminUsername = none ∧
    getenv envDbOnly kAdminPassword = none ∧
    (load_env_variables envDbOnly FileSystem.noFile).isSome = true := by
  refine ⟨rfl, rfl, rfl, rfl, rfl⟩

/-- C1 (amended): in CI mode, configuration loading succeeds iff at least
three of the nine recognized environment variables are set to non-empty
values — the essential keys need not be among them. -/
theorem c1_amended (env : EnvMap) (fs : FileSystem)
    (h : getenv env kGithubActions = some kTrue) :
    (load_env_variables env fs).isSome = true ↔
      3 ≤ (required_vars.filter (fun v => truthyOpt (getenv env v))).length := by
  unfold load_env_variables
  rw [if_pos h]
  have hl := length_filterMap_ciVar env required_vars
  by_cases h3 : 3 ≤ (ciCollect env).length
  · rw [if_pos h3]
    unfold ciCollect at h3
    rw [hl] at h3
    simpa using h3
  · rw [if_neg h3]
    unfold ciCollect at h3
    rw [hl] at h3
    simpa using h3

/-- C1 (witness): the amended statement applied to the database-only CI
environment: loading succeeds and exactly three recognized variables are
truthy. -/
theorem c1_amended_witness :
    getenv envDbOnly kGithubActions = some kTrue ∧
    ((load_env_variables envDbOnly FileSystem.noFile).isSome = true ↔
      3 ≤ (required_vars.filter (fun v => truthyOpt (getenv envDbOnly v))).length) :=
  ⟨rfl, c1_amended envDbOnly FileSystem.noFile rfl⟩

/-- C2 (counterexample): on a base URL with two trailing slashes the source
removes both before appending the path, while trimming exactly one
trailing slash (the spec's wording) would keep the other: the two
constructions disagree at this input. -/
theorem c2_counterexample :
    endpoint_url ("http://x//") = ("http://x/run_scheduled_tasks") ∧
    endpointUrlSpecOneSlash ("http://x//") = ("http://x//run_scheduled_tasks") ∧
    endpoint_url ("http://x//") ≠ endpointUrlSpecOneSlash ("http://x//") := by
  refine ⟨rfl, rfl, ?_⟩
  intro hcontra
  have hlen := congrArg String.length hcontra
  exact absurd hlen (by decide)

/-- C2 (amended): URL construction removes every trailing slash from the
configured base URL and then appends the fixed path: each base URL is the
slash-free-tail prefix `rstripSlash u` followed by some run of slashes,
all of which are removed before `/run_scheduled_tasks` is appended. -/
theorem c2_amended (u : String) :
    ∃ k : Nat,
      u.toList = (rstripSlash u).toList ++ List.replicate k '/' ∧
      endsInSlash (rstripSlash u) = false ∧
      endpoint_url u = rstripSlash u ++ kRunPath := by
  obtain ⟨k, hk⟩ := exists_slash_run u.toList
  refine ⟨k, ?_, endsInSlash_rstripSlash u, rfl⟩
  rw [rstripSlash, dropTrailing]
  exact hk

/-- C3: the top level maps the trigger's boolean result to exit code 0 on
success and 1 on failure; interruption and unanticipated exceptions are
caught and mapped to 1, so every run terminates with exit code 0 or 1. -/
theorem c3_exit_codes (run : TriggerRun) (env : EnvMap) (fs : FileSystem)
    (http : HttpOutcome) :
    (main_exit_code run = 0 ∨ main_exit_code run = 1) ∧
    (main_exit_code run = 0 ↔ ∃ r, run = TriggerRun.completed r ∧ r.ok = true) ∧
    main_exit_code TriggerRun.keyboardInterrupt = 1 ∧
    main_exit_code TriggerRun.fatalError = 1 ∧
    main_exit_code (TriggerRun.completed (trigger_scheduled_tasks env fs http)) =
      (if (trigger_scheduled_tasks env fs http).ok then 0 else 1) := by
  refine ⟨?_, ?_, rfl, rfl, rfl⟩
  · cases run with
    | completed r => cases hr : r.ok <;> simp [main_exit_code, hr]
    | keyboardInterrupt => simp [main_exit_code]
    | fatalError => simp [main_exit_code]
  · cases run with
    | completed r => cases hr : r.ok <;> simp [main_exit_code, hr]
    | keyboardInterrupt => simp [main_exit_code]
    | fatalError => simp [main_exit_code]

/-- A 200 response with a JSON-object body is handled as success, with the
counts (default 0) logged and a truthy errors list logged as warnings. -/
lemma handle_response_200_obj (url t : String) (f : JsonFields) :
    handle_response url (HttpOutcome.response ⟨200, some (ParsedJson.obj f), t⟩) =
      (true,
        [LogEvent.triggering url,
         LogEvent.successCounts (f.tasks_executed.getD 0) (f.total_due_tasks.getD 0)] ++
          (match f.errors with
           | some errs => if errs.isEmpty then [] else [LogEvent.taskErrors errs]
           | none => [])) := rfl

/-- C4: every HTTP outcome other than a status-200 response — 401, 404, any
other status, timeout, connection failure, or any other transport error —
makes `trigger_scheduled_tasks` return failure, regardless of the response
body. -/
theorem c4_non_200_failure (env : EnvMap) (fs : FileSystem) (http : HttpOutcome)
    (h : ∀ r : HttpResponse, http = HttpOutcome.response r → r.status_code ≠ 200) :
    (trigger_scheduled_tasks env fs http).ok = false := by
  cases hok : (trigger_scheduled_tasks env fs http).ok
  · rfl
  · obtain ⟨r, f, heq, h200, _⟩ := trigger_ok_true env fs http hok
    exact absurd h200 (h r heq)

/-- C4 (witness): a 404 response against a well-configured CI environment
yields failure. -/
theorem c4_witness :
    (∀ r : HttpResponse,
        HttpOutcome.response ⟨404, none, kEmpty⟩ = HttpOutcome.response r →
          r.status_code ≠ 200) ∧
    (trigger_scheduled_tasks envEssential FileSystem.noFile
        (HttpOutcome.response ⟨404, none, kEmpty⟩)).ok = false :=
  ⟨fun r hr => by cases hr; decide,
   c4_non_200_failure envEssential FileSystem.noFile
     (HttpOutcome.response ⟨404, none, kEmpty⟩) (fun r hr => by cases hr; decide)⟩

/-- C5: a 200 response whose body is a JSON object yields success; the
`tasks_executed` and `total_due_tasks` counts are logged with default 0
when absent, and a present non-empty errors list is logged as warnings
without changing the success result. -/
theorem c5_http200_success (env : EnvMap) (fs : FileSystem) (d : EnvMap)
    (f : JsonFields) (t : String)
    (hload : load_env_variables env fs = some d)
    (hd : d.isEmpty = false)
    (hu : truthyOpt (List.lookup kFlaskAppUrl d) = true)
    (hn : truthyOpt (List.lookup kAdminUsername d) = true)
    (hp : truthyOpt (List.lookup kAdminPassword d) = true) :
    (trigger_scheduled_tasks env fs
        (HttpOutcome.response ⟨200, some (ParsedJson.obj f), t⟩)).ok = true ∧
    LogEvent.successCounts (f.tasks_executed.getD 0) (f.total_due_tasks.getD 0) ∈
      (trigger_scheduled_tasks env fs
        (HttpOutcome.response ⟨200, some (ParsedJson.obj f), t⟩)).log ∧
    (∀ errs, f.errors = some errs → errs ≠ [] →
      LogEvent.taskErrors errs ∈
        (trigger_scheduled_tasks env fs
          (HttpOutcome.response ⟨200, some (ParsedJson.obj f), t⟩)).log) := by
  have hmain : trigger_scheduled_tasks env fs
      (HttpOutcome.response ⟨200, some (ParsedJson.obj f), t⟩) =
      ⟨true, true,
        [LogEvent.triggering (endpoint_url ((List.lookup kFlaskAppUrl d).getD kEmpty)),
         LogEvent.successCounts (f.tasks_executed.getD 0) (f.total_due_tasks.getD 0)] ++
          (match f.errors with
           | some errs => if errs.isEmpty then [] else [LogEvent.taskErrors errs]
           | none => [])⟩ := by
    unfold trigger_scheduled_tasks
    rw [hload]
    simp only [hd, Bool.false_eq_true, if_false, hu, hn, hp, Bool.and_self, if_true]
    rw [handle_response_200_obj]
  rw [hmain]
  refine ⟨rfl, by simp, ?_⟩
  intro errs he hne
  have hie : errs.isEmpty = false := by
    cases errs
    · exact absurd rfl hne
    · rfl
  simp [he, hie]

/-- C5 (witness): with the essential CI configuration and a 200 response
reporting 5 executed of 7 due tasks and one per-task error, the call
succeeds, both counts are logged and the error is logged as a warning. -/
theorem c5_witness :
    load_env_variables envEssential FileSystem.noFile = some dEssential ∧
    dEssential.isEmpty = false ∧
    truthyOpt (List.lookup kFlaskAppUrl dEssential) = true ∧
    truthyOpt (List.lookup kAdminUsername dEssential) = true ∧
    truthyOpt (List.lookup kAdminPassword dEssential) = true ∧
    ((trigger_scheduled_tasks envEssential FileSystem.noFile
        (HttpOutcome.response ⟨200, some (ParsedJson.obj fSample), ("b")⟩)).ok = true ∧
      LogEvent.successCounts (fSample.tasks_executed.getD 0) (fSample.total_due_tasks.getD 0) ∈
        (trigger_scheduled_tasks envEssential FileSystem.noFile
          (HttpOutcome.response ⟨200, some (ParsedJson.obj fSample), ("b")⟩)).log ∧
      (∀ errs, fSample.errors = some errs → errs ≠ [] →
        LogEvent.taskErrors errs ∈
          (trigger_scheduled_tasks envEssential FileSystem.noFile
            (HttpOutcome.response ⟨200, some (ParsedJson.obj fSample), ("b")⟩)).log)) :=
  ⟨rfl, rfl, rfl, rfl, rfl,
   c5_http200_success envEssential FileSystem.noFile dEssential fSample ("b")
     rfl rfl rfl rfl rfl⟩

/-- C6: if configuration loading fails, or the loaded configuration is
empty or lacks any of the three required keys, `trigger_scheduled_tasks`
fails immediately and no HTTP request is issued. -/
theorem c6_missing_config_no_request (env : EnvMap) (fs : FileSystem)
    (http : HttpOutcome)
    (h : load_env_variables env fs = none ∨
      ∃ d, load_env_variables env fs = some d ∧
        (d.isEmpty = true ∨ List.lookup kFlaskAppUrl d = none ∨
          List.lookup kAdminUsername d = none ∨ List.lookup kAdminPassword d = none)) :
    (trigger_scheduled_tasks env fs http).ok = false ∧
    (trigger_scheduled_tasks env fs http).requestIssued = false := by
  unfold trigger_scheduled_tasks
  rcases h with h | ⟨d, hload, hcase⟩
  · rw [h]
    exact ⟨rfl, rfl⟩
  · rw [hload]
    rcases hcase with hd | hk | hk | hk
    · simp [hd]
    all_goals {
      by_cases hd' : d.isEmpty = true
      · simp [hd']
      · have hcond : (truthyOpt (List.lookup kFlaskAppUrl d) &&
            truthyOpt (List.lookup kAdminUsername d) &&
            truthyOpt (List.lookup kAdminPassword d)) = false := by
          rw [hk]
          simp [truthyOpt]
        simp [hd', hcond]
    }

/-- C6 (witness): with an empty environment and no `.env` file,
configuration loading fails and the trigger fails without any request. -/
theorem c6_witness :
    load_env_variables ([] : EnvMap) FileSystem.noFile = none ∧
    ((trigger_scheduled_tasks [] FileSystem.noFile HttpOutcome.timeout).ok = false ∧
      (trigger_scheduled_tasks [] FileSystem.noFile
        HttpOutcome.timeout).requestIssued = false) :=
  ⟨rfl, c6_missing_config_no_request [] FileSystem.noFile HttpOutcome.timeout (Or.inl rfl)⟩

/-- C7: in file mode the mapping is built from exactly the lines that are
non-blank after stripping, not `#`-comments, and contain `=`: such lines
are split on the first `=` with key and value trimmed and value unquoted,
while blank lines, comment lines and `=`-free lines contribute nothing,
wherever they occur in the file. -/
theorem c7_env_file_parsing :
    (∀ (l₁ l₂ : List String) (b : String),
        pyStrip b = kEmpty ∨ startsHash (pyStrip b) = true ∨
          splitFirstEq (pyStrip b).toList = none →
        load_env_file (l₁ ++ b :: l₂) = load_env_file (l₁ ++ l₂)) ∧
    (∀ (line k v : String), parseEnvLine line = some (k, v) →
        pyStrip line ≠ kEmpty ∧ startsHash (pyStrip line) = false ∧
        ∃ a c, splitFirstEq (pyStrip line).toList = some (a, c) ∧
          k = pyStrip (String.mk a) ∧ v = stripQuotes (pyStrip (String.mk c))) := by
  constructor
  · intro l₁ l₂ b hb
    have hnone := parseEnvLine_eq_none b hb
    unfold load_env_file
    simp only [List.foldl_append, List.foldl_cons, hnone]
  · intro line k v h
    unfold parseEnvLine at h
    by_cases he : (pyStrip line).isEmpty = true
    · simp [he] at h
    · by_cases hh : startsHash (pyStrip line) = true
      · simp [he, hh] at h
      · cases hs : splitFirstEq (pyStrip line).toList with
        | none =>
            have hs' : splitFirstEq (pyStrip line).data = none := hs
            simp [he, hh, hs'] at h
        | some ac =>
            obtain ⟨a, c⟩ := ac
            have hs' : splitFirstEq (pyStrip line).data = some (a, c) := hs
            simp [he, hh, hs'] at h
            refine ⟨?_, ?_, a, c, rfl, h.1.symm, h.2.symm⟩
            · intro hcontra
              apply he
              rw [hcontra]
              rfl
            · cases hsh : startsHash (pyStrip line)
              · rfl
              · exact absurd hsh hh

/-- C7 (witness): a comment line between two `KEY=VALUE` lines contributes
nothing, and a line with spaces and a double-quoted value parses to the
trimmed key and unquoted value. -/
theorem c7_witness :
    load_env_file [("A=1"), ("# note"), ("B=2")] = load_env_file [("A=1"), ("B=2")] ∧
    (pyStrip ("K = \"1\" ") ≠ kEmpty ∧ startsHash (pyStrip ("K = \"1\" ")) = false ∧
      ∃ a c, splitFirstEq (pyStrip ("K = \"1\" ")).toList = some (a, c) ∧
        ("K") = pyStrip (String.mk a) ∧ ("1") = stripQuotes (pyStrip (String.mk c))) :=
  ⟨c7_env_file_parsing.1 [("A=1")] [("B=2")] ("# note") (Or.inr (Or.inl rfl)),
   c7_env_file_parsing.2 ("K = \"1\" ") ("K") ("1") rfl⟩

/-- C8: a 200 response whose body is not parseable as JSON makes
`trigger_scheduled_tasks` return failure — a 200 status alone does not
guarantee success. -/
theorem c8_unparseable_body_failure (env : EnvMap) (fs : FileSystem) (t : String) :
    (trigger_scheduled_tasks env fs
        (HttpOutcome.response ⟨200, none, t⟩)).ok = false := by
  cases hok : (trigger_scheduled_tasks env fs (HttpOutcome.response ⟨200, none, t⟩)).ok
  · rfl
  · obtain ⟨r, f, heq, h200, hj⟩ :=
      trigger_ok_true env fs (HttpOutcome.response ⟨200, none, t⟩) hok
    injection heq with hr
    rw [← hr] at hj
    exact absurd hj (by simp)

/-- C9: in file mode, a `.env` file with no valid `KEY=VALUE` line loads as
the empty mapping, and the trigger treats that empty mapping exactly like
a load failure: failure with no request issued. -/
theorem c9_empty_env_file (env : EnvMap) (lines : List String) (http : HttpOutcome)
    (hflag : getenv env kGithubActions ≠ some kTrue)
    (hlines : ∀ l ∈ lines, parseEnvLine l = none) :
    load_env_variables env (FileSystem.file lines) = some [] ∧
    (trigger_scheduled_tasks env (FileSystem.file lines) http).ok = false ∧
    (trigger_scheduled_tasks env (FileSystem.file lines) http).requestIssued = false := by
  have hfile : load_env_file lines = [] := by
    unfold load_env_file
    exact foldl_parse_none lines [] hlines
  have hload : load_env_variables env (FileSystem.file lines) = some [] := by
    unfold load_env_variables
    rw [if_neg hflag]
    show some (load_env_file lines) = some []
    rw [hfile]
  refine ⟨hload, ?_⟩
  unfold trigger_scheduled_tasks
  rw [hload]
  simp

/-- C9 (witness): an environment with the CI flag unset and a file of one
comment line and one blank line yields the empty mapping, failure, and no
request. -/
theorem c9_witness :
    getenv ([] : EnvMap) kGithubActions ≠ some kTrue ∧
    (∀ l ∈ [("# only"), ("   ")], parseEnvLine l = none) ∧
    (load_env_variables [] (FileSystem.file [("# only"), ("   ")]) = some [] ∧
      (trigger_scheduled_tasks [] (FileSystem.file [("# only"), ("   ")])
        HttpOutcome.connectionError).ok = false ∧
      (trigger_scheduled_tasks [] (FileSystem.file [("# only"), ("   ")])
        HttpOutcome.connectionError).requestIssued = false) :=
  ⟨by decide, by decide,
   c9_empty_env_file [] [("# only"), ("   ")] HttpOutcome.connectionError
     (by decide) (by decide)⟩

/-- C10: in CI mode a recognized variable set to the empty string is
treated exactly like an absent variable: it never enters the collected
mapping, and erasing it from the environment changes nothing about
configuration loading — in particular it does not count toward the
threshold of three. -/
theorem c10_empty_like_absent (env : EnvMap) (fs : FileSystem) (v : String)
    (hv : v ∈ required_vars) (he : getenv env v = some kEmpty) :
    List.lookup v (ciCollect env) = none ∧
    getenv (envErase env v) v = none ∧
    load_env_variables env fs = load_env_variables (envErase env v) fs := by
  refine ⟨lookup_filterMap_ciVar env v he required_vars, getenv_envErase_self env v, ?_⟩
  have hvga : v ≠ kGithubActions := by
    intro hcontra
    rw [hcontra] at hv
    exact absurd hv (by decide)
  have hflag : getenv (envErase env v) kGithubActions = getenv env kGithubActions :=
    getenv_envErase_ne env v kGithubActions (fun hcontra => hvga hcontra.symm)
  have hcc : ciCollect (envErase env v) = ciCollect env := ciCollect_envErase env v he
  unfold load_env_variables
  rw [hflag, hcc]

/-- C10 (witness): with `FLASK_APP_URL` set to the empty string, the
collected CI mapping omits it and loading behaves as if it were absent. -/
theorem c10_witness :
    kFlaskAppUrl ∈ required_vars ∧
    getenv envEmptyUrl kFlaskAppUrl = some kEmpty ∧
    (List.lookup kFlaskAppUrl (ciCollect envEmptyUrl) = none ∧
      getenv (envErase envEmptyUrl kFlaskAppUrl) kFlaskAppUrl = none ∧
      load_env_variables envEmptyUrl FileSystem.noFile =
        load_env_variables (envErase envEmptyUrl kFlaskAppUrl) FileSystem.noFile) :=
  ⟨by decide, rfl,
   c10_empty_like_absent envEmptyUrl FileSystem.noFile kFlaskAppUrl (by decide) rfl⟩

end PollBotMonitor
